import Mathlib

/-!
Shallow embedding of the Chatbot_Application client layer:

* `frontend/src/types/upload.ts` — the `allowedExt` type and the message API
  (`createApi` with `getMessages` / `createMessage` / `deleteMessage`);
* `lib/uploadDocument.ts` (source file `part_001`) — `getExt`,
  `createUploadFormData`, `uploadDocument`;
* `app/admin/upload/page.tsx` (source file `part_000`) — `handleSubmit`.

The HTTP layer is modelled as an explicit input (`HttpResult` for the single
upload call, a `QueryResult` per fan-out call); the ambient session storage is
the `token : Option String` argument; effects that the claims talk about
(whether the credential was read, how many HTTP calls were issued) are
returned explicitly in `UploadEffects`.  A TypeScript `throw` is represented
by the dedicated outcome constructor `UploadOutcome.thrown`, distinct from a
returned value.
-/

namespace Chatbot

/-- The documented allow-list: the union type
`allowedExt = ".pdf" | ".docx" | ".pptx" | ".ppt"` from
`frontend/src/types/upload.ts`. -/
def allowedExtList : List String := [".pdf", ".docx", ".pptx", ".ppt"]

/-- `UploadFileModel` from `frontend/src/types/upload.ts`; the `File` value is
represented by its name (the only part the client logic inspects).  `none`
stands for an absent (`undefined` or `null`) field. -/
structure UploadFileModel where
  fileName : String
  start_page : Option Int
  end_page : Option Int
  topic : Option String
deriving Repr, DecidableEq

/-- Outcome of `uploadDocument`, tagged by the control-flow path of the
source: `success` is the `return response.data` path, `failure` is a value
returned on the validation or `catch` path, and `thrown` is a
`throw new Error(...)` escaping the function. -/
inductive UploadOutcome where
  | success (message : String)
  | failure (message : String)
  | thrown (message : String)
deriving Repr, DecidableEq

def UploadOutcome.isThrown : UploadOutcome → Bool
  | UploadOutcome.thrown _ => true
  | _ => false

def UploadOutcome.isFailure : UploadOutcome → Bool
  | UploadOutcome.failure _ => true
  | _ => false

/-- Effects of one `uploadDocument` run: whether
`sessionStorage.getItem("access_token")` was executed, and how many HTTP
requests were issued. -/
structure UploadEffects where
  tokenConsulted : Bool
  httpCalls : Nat
deriving Repr, DecidableEq

/-- Result of the single `axiosInstance.post` call: either a resolved
response whose body is `{ message }`, or a rejection whose optional
`error.response?.data?.message` is carried along. -/
inductive HttpResult where
  | ok (message : String)
  | err (respMessage : Option String)
deriving Repr, DecidableEq

/-- `const ALLOWED: Set<string> = new Set([".pdf", ".ppt", ".docx"]);`
(`lib/uploadDocument.ts`, line 5). -/
def ALLOWED : List String := [".pdf", ".ppt", ".docx"]

/-- Index of the last `'.'` in a character list (JS `name.lastIndexOf(".")`,
as an `Option` instead of `-1`). -/
def lastDotIdx : List Char → Option Nat
  | [] => none
  | c :: cs =>
    match lastDotIdx cs with
    | some i => some (i + 1)
    | none => if c = '.' then some 0 else none

/-- `getExt` from `lib/uploadDocument.ts`: the lowercased slice of the name
from the last `'.'` (inclusive), or `""` when no dot is present.
`toLowerCase` is modelled on ASCII via `Char.toLower`. -/
def getExt (name : String) : String :=
  match lastDotIdx name.toList with
  | some i => String.mk ((name.toList.drop i).map Char.toLower)
  | none => ""

/-- `createUploadFormData` from `lib/uploadDocument.ts`; `FormData` is a list
of appended `(field, value)` pairs, the file blob represented by its name. -/
def createUploadFormData (d : UploadFileModel) : List (String × String) :=
  [("file", d.fileName), ("start_page", toString (d.start_page.getD 1))] ++
    (match d.end_page with
     | some e => [("end_page", toString e)]
     | none => []) ++
    [("topic", d.topic.getD "general")]

/-- `uploadDocument` from `lib/uploadDocument.ts`.  Control flow of the
source, in order: the extension check and early `return`; the token lookup
and `throw new Error("No token found")`; the `try`/`catch` around the single
`axiosInstance.post`, whose `catch` returns
`{ message: error.response?.data?.message ?? "Unexpected error occurred" }`. -/
def uploadDocument (token : Option String) (http : HttpResult)
    (d : UploadFileModel) : UploadOutcome × UploadEffects :=
  let ext := getExt d.fileName
  if !(ALLOWED.contains ext) then
    (UploadOutcome.failure
       "Invalid file type. Only PDF, PPT, and DOCX files are allowed.",
     ⟨false, 0⟩)
  else
    match token with
    | none => (UploadOutcome.thrown "No token found", ⟨true, 0⟩)
    | some _ =>
      match http with
      | HttpResult.ok m => (UploadOutcome.success m, ⟨true, 1⟩)
      | HttpResult.err m =>
        (UploadOutcome.failure (m.getD "Unexpected error occurred"), ⟨true, 1⟩)

/-- What one `handleSubmit` run does after the guards: either set a local
error message (no service call), or invoke `uploadDocument` with the given
`UploadFileModel`. -/
inductive SubmitAction where
  | localError (message : String)
  | callUpload (d : UploadFileModel)
deriving Repr, DecidableEq

/-- The validation prefix of `handleSubmit` from `app/admin/upload/page.tsx`:
the `!file`, `startPage < 1` and `endPage !== null && endPage < startPage`
guards, each returning early with an error message, else the call to
`uploadDocument({ file, start_page, end_page, topic })`. -/
def handleSubmit (file : Option String) (startPage : Int) (endPage : Option Int)
    (topic : String) : SubmitAction :=
  match file with
  | none => SubmitAction.localError "Please select a file (.pdf, .pptx, .ppt, .docx)."
  | some f =>
    if startPage < 1 then
      SubmitAction.localError "Start page must be at least 1."
    else
      match endPage with
      | some e =>
        if e < startPage then
          SubmitAction.localError "End page must be greater than or equal to start page."
        else
          SubmitAction.callUpload ⟨f, some startPage, some e, some topic⟩
      | none => SubmitAction.callUpload ⟨f, some startPage, none, some topic⟩

/-- `MessageSimple`: the `createMessage` mutation argument
`{conversationId, role, content}`. -/
structure MessageSimple where
  conversationId : String
  role : String
  content : String
deriving Repr, DecidableEq

/-- The request body built at the top of `createMessage`'s `queryFn`. -/
structure Payload where
  conversation_id : String
  sender_type : String
  content : String
deriving Repr, DecidableEq

/-- Outgoing role translation (`body.role === "user" ? "User" : "Bot"`,
`frontend/src/types/upload.ts` line 94). -/
def roleToWire (role : String) : String :=
  if role = "user" then "User" else "Bot"

/-- Incoming role translation (`msg.sender_type === "User" ? "user" : "ai"`,
used in `getMessages`, `getMessage` and `toMessage`). -/
def wireToRole (sender_type : String) : String :=
  if sender_type = "User" then "user" else "ai"

/-- The wire shape of one message as returned by the backend. -/
structure WireMessage where
  id : String
  conversation : String
  sender_type : String
  content : String
  created_at : Nat
deriving Repr, DecidableEq

/-- The backend's response envelope: `response.data` holds the message. -/
structure Envelope where
  data : WireMessage
deriving Repr, DecidableEq

/-- The domain `Message` produced by `toMessage` / `transformResponse`. -/
structure Message where
  id : String
  conversationId : String
  role : String
  content : String
  createdAt : Nat
deriving Repr, DecidableEq

/-- The `{status, message}` error descriptor of a failed base query. -/
structure WireError where
  status : Nat
  message : String
deriving Repr, DecidableEq

/-- Result of one `baseQuery(...)` call inside `createMessage`'s `queryFn`:
`{data}` or `{error}`. -/
inductive QueryResult where
  | ok (data : Envelope)
  | error (e : WireError)
deriving Repr, DecidableEq

def QueryResult.isError : QueryResult → Bool
  | QueryResult.error _ => true
  | QueryResult.ok _ => false

/-- `toMessage` from `createMessage`'s `queryFn`
(`frontend/src/types/upload.ts` lines 111–120). -/
def toMessage (resp : Envelope) : Message :=
  { id := resp.data.id
    conversationId := resp.data.conversation
    role := wireToRole resp.data.sender_type
    content := resp.data.content
    createdAt := resp.data.created_at }

/-- The shared `payload` object of `createMessage`'s `queryFn`. -/
def messagePayload (b : MessageSimple) : Payload :=
  { conversation_id := b.conversationId
    sender_type := roleToWire b.role
    content := b.content }

/-- One labelled HTTP request as dispatched by `createMessage`. -/
structure HttpRequest where
  url : String
  method : String
  payload : Payload
deriving Repr, DecidableEq

/-- The three requests dispatched together by `createMessage` (rag, raw,
rawModel), all built from the single `payload` value. -/
def createMessageRequests (b : MessageSimple) : List HttpRequest :=
  let payload := messagePayload b
  [ { url := "/messages/", method := "POST", payload := payload },
    { url := "/messages/raw/", method := "POST", payload := payload },
    { url := "/messages/raw-model/", method := "POST", payload := payload } ]

/-- `CreateAllResult` from `frontend/src/types/upload.ts`. -/
structure CreateAllResult where
  rag : Message
  raw : Message
  rawModel : Message
deriving Repr, DecidableEq

/-- The join-and-aggregate tail of `createMessage`'s `queryFn`
(lines 104–128): after `Promise.all`, bubble the first error in the order
rag, raw, rawModel, else assemble the `CreateAllResult` via `toMessage`.
`Promise.all` preserves positions, so completion order never enters. -/
def createMessage (ragRes rawRes rawModelRes : QueryResult) :
    Except WireError CreateAllResult :=
  match ragRes with
  | QueryResult.error e => Except.error e
  | QueryResult.ok ragData =>
    match rawRes with
    | QueryResult.error e => Except.error e
    | QueryResult.ok rawData =>
      match rawModelRes with
      | QueryResult.error e => Except.error e
      | QueryResult.ok rawModelData =>
        Except.ok { rag := toMessage ragData, raw := toMessage rawData,
                    rawModel := toMessage rawModelData }

/-- Spec-side description of "the error of the first failing call in the
priority order rag, raw, rawModel", to be compared with `createMessage`. -/
def firstError? (ragRes rawRes rawModelRes : QueryResult) : Option WireError :=
  match ragRes with
  | QueryResult.error e => some e
  | QueryResult.ok _ =>
    match rawRes with
    | QueryResult.error e => some e
    | QueryResult.ok _ =>
      match rawModelRes with
      | QueryResult.error e => some e
      | QueryResult.ok _ => none

/-- A tag-indexed cache entry (spec §3, `CachedQueryEntry`); the value is
kept opaque as a string. -/
structure CacheEntry where
  tag : String
  key : String
  value : String
deriving Repr, DecidableEq

/-- `invalidatesTags: ["Message"]` on the `createMessage` mutation
(`frontend/src/types/upload.ts` line 130). -/
def createMessage_invalidatesTags : List String := ["Message"]

/-- `invalidatesTags: ["Message"]` on the `deleteMessage` mutation
(`frontend/src/types/upload.ts` line 138). -/
def deleteMessage_invalidatesTags : List String := ["Message"]

/-- `providesTags: ["Message"]` on the `getMessages` query. -/
def getMessages_providesTags : List String := ["Message"]

/-- Modelled from the spec: the Result Cache's `invalidate(tag)` (spec §4.2).
The RTK Query cache machinery behind `createApi` is library code not present
in the repository sources; per the spec, invalidating a tag stales every
entry under that tag, so the next `get` for any of those keys misses. -/
def invalidate (tag : String) (cache : List CacheEntry) : List CacheEntry :=
  cache.filter (fun e => e.tag != tag)

/-- Modelled from the spec: the Result Cache's `get(tag, key)` (spec §4.2),
returning a cached value when present and not invalidated, else a miss. -/
def cacheGet (tag key : String) (cache : List CacheEntry) : Option String :=
  (cache.find? (fun e => e.tag == tag && e.key == key)).map CacheEntry.value

/-- Modelled from the spec: a completed mutation applies `invalidate` to each
tag in its `invalidatesTags` declaration before control returns. -/
def applyInvalidations (tags : List String) (cache : List CacheEntry) :
    List CacheEntry :=
  tags.foldl (fun acc t => invalidate t acc) cache

theorem cacheGet_invalidate (t k : String) (c : List CacheEntry) :
    cacheGet t k (invalidate t c) = none := by
  have h : (invalidate t c).find? (fun e => e.tag == t && e.key == k) = none := by
    rw [List.find?_eq_none]
    intro x hx
    rw [invalidate, List.mem_filter] at hx
    have hne : x.tag ≠ t := by simpa using hx.2
    simp [hne]
  simp [cacheGet, h]

/-- C1: if at least one of the three creation calls returns an error (so that
the first failing error in the priority order rag, raw, rawModel is `e`),
`createMessage` returns exactly that error and never a `CreateAllResult`,
whatever the other calls returned. -/
theorem createMessage_first_error_wins (r1 r2 r3 : QueryResult) (e : WireError)
    (h : firstError? r1 r2 r3 = some e) :
    createMessage r1 r2 r3 = Except.error e ∧
      ∀ res, createMessage r1 r2 r3 ≠ Except.ok res := by
  cases r1 with
  | error e1 =>
    simp only [firstError?, Option.some.injEq] at h
    subst h
    exact ⟨rfl, by simp [createMessage]⟩
  | ok d1 =>
    cases r2 with
    | error e2 =>
      simp only [firstError?, Option.some.injEq] at h
      subst h
      exact ⟨rfl, by simp [createMessage]⟩
    | ok d2 =>
      cases r3 with
      | error e3 =>
        simp only [firstError?, Option.some.injEq] at h
        subst h
        exact ⟨rfl, by simp [createMessage]⟩
      | ok d3 => simp [firstError?] at h

theorem createMessage_first_error_wins_witness :
    createMessage (QueryResult.error ⟨500, "rag failed"⟩)
        (QueryResult.error ⟨502, "raw failed"⟩)
        (QueryResult.error ⟨503, "rawModel failed"⟩) =
      Except.error ⟨500, "rag failed"⟩ :=
  (createMessage_first_error_wins (QueryResult.error ⟨500, "rag failed"⟩)
    (QueryResult.error ⟨502, "raw failed"⟩)
    (QueryResult.error ⟨503, "rawModel failed"⟩) ⟨500, "rag failed"⟩ rfl).1

/-- C2: both mutations declare `invalidatesTags ["Message"]`, and applying
those invalidations to any cache state removes every entry under tag
`"Message"`: a subsequent `get` under that tag misses, for every key. -/
theorem message_mutations_invalidate_cache (cache : List CacheEntry) (key : String) :
    cacheGet "Message" key (applyInvalidations createMessage_invalidatesTags cache) = none ∧
    cacheGet "Message" key (applyInvalidations deleteMessage_invalidatesTags cache) = none := by
  constructor <;>
    simpa [applyInvalidations, createMessage_invalidatesTags,
           deleteMessage_invalidatesTags] using
      cacheGet_invalidate "Message" key cache

/-- C3 (code bug): the file `doc.pptx` has suffix `.pptx`, which the
repository's own `allowedExt` type (and upload page text) lists as allowed,
yet the enforced set `ALLOWED` omits it, so `uploadDocument` rejects the file
with the invalid-type failure and issues no HTTP call. -/
theorem uploadDocument_rejects_pptx :
    getExt "doc.pptx" = ".pptx" ∧
    allowedExtList.contains ".pptx" = true ∧
    ALLOWED.contains ".pptx" = false ∧
    uploadDocument (some "token") (HttpResult.ok "ok")
        ⟨"doc.pptx", some 1, none, some "general"⟩ =
      (UploadOutcome.failure
         "Invalid file type. Only PDF, PPT, and DOCX files are allowed.",
       ⟨false, 0⟩) := by
  refine ⟨?_, ?_, ?_, ?_⟩ <;> decide

/-- C4 counterexample: with a valid `.pdf` file and no stored token,
`uploadDocument` does not return a `Failure{message}` value — it throws
(`throw new Error("No token found")`) — though it does issue zero HTTP
calls. -/
theorem uploadDocument_noToken_throws_cex :
    (uploadDocument none (HttpResult.ok "ok") ⟨"doc.pdf", some 1, none, none⟩).1 =
      UploadOutcome.thrown "No token found" ∧
    (uploadDocument none (HttpResult.ok "ok") ⟨"doc.pdf", some 1, none, none⟩).1.isFailure
      = false ∧
    (uploadDocument none (HttpResult.ok "ok") ⟨"doc.pdf", some 1, none, none⟩).2.httpCalls
      = 0 := by
  refine ⟨?_, ?_, ?_⟩ <;> decide

/-- C4 amended: for every upload input that passes extension validation, if
no credential is stored, `uploadDocument` fails immediately by throwing an
`Error` with message `"No token found"` (rather than returning a typed
`Failure` value) and performs zero invocations of the HTTP client. -/
theorem uploadDocument_missing_token (http : HttpResult) (d : UploadFileModel)
    (h : ALLOWED.contains (getExt d.fileName) = true) :
    uploadDocument none http d =
      (UploadOutcome.thrown "No token found", ⟨true, 0⟩) := by
  have h2 : getExt d.fileName ∈ ALLOWED := by simpa using h
  simp [uploadDocument, h2]

theorem uploadDocument_missing_token_witness :
    uploadDocument none (HttpResult.ok "ok") ⟨"doc.pdf", some 1, none, none⟩ =
      (UploadOutcome.thrown "No token found", ⟨true, 0⟩) :=
  uploadDocument_missing_token (HttpResult.ok "ok") _ (by decide)

/-- C5 counterexample: the round trip for `"assistant"` does not return
`"assistant"`: the read translation maps the wire value `"Bot"` to `"ai"`. -/
theorem role_roundtrip_assistant_cex :
    wireToRole (roleToWire "assistant") = "ai" ∧
    wireToRole (roleToWire "assistant") ≠ "assistant" := by
  refine ⟨?_, ?_⟩ <;> decide

/-- C5 amended: `"user"` round-trips (`"user" → "User" → "user"`), while
`"assistant"` is sent as `"Bot"` and comes back as `"ai"` on read (the read
translation maps every non-`"User"` wire role to `"ai"`). -/
theorem role_roundtrip_translation :
    wireToRole (roleToWire "user") = "user" ∧
    roleToWire "assistant" = "Bot" ∧
    wireToRole "Bot" = "ai" := by
  refine ⟨?_, ?_, ?_⟩ <;> decide

/-- C6: for every upload input that passes extension validation and has a
credential, `uploadDocument` never throws: a resolved call returns the
success outcome and any transfer error is caught and converted into the
failure value `error.response?.data?.message ?? "Unexpected error occurred"`,
so the caller always receives a returned, typed outcome. -/
theorem uploadDocument_no_uncaught (http : HttpResult) (d : UploadFileModel)
    (tok : String) (h : ALLOWED.contains (getExt d.fileName) = true) :
    (uploadDocument (some tok) http d).1.isThrown = false ∧
    ∀ m, http = HttpResult.err m →
      (uploadDocument (some tok) http d).1 =
        UploadOutcome.failure (m.getD "Unexpected error occurred") := by
  have h2 : getExt d.fileName ∈ ALLOWED := by simpa using h
  cases http <;> simp [uploadDocument, h2, UploadOutcome.isThrown]

theorem uploadDocument_no_uncaught_witness :
    (uploadDocument (some "tok") (HttpResult.err none)
        ⟨"doc.pdf", some 1, none, none⟩).1.isThrown = false :=
  (uploadDocument_no_uncaught (HttpResult.err none) _ "tok" (by decide)).1

/-- C7: `handleSubmit` validates the page range before calling the upload
service: if `startPage < 1`, or `endPage` is present and below `startPage`,
it produces a local error message and never invokes `uploadDocument`; and a
submission with a selected file, `startPage = 1` and absent `endPage`
proceeds to the `uploadDocument` call. -/
theorem handleSubmit_page_range (file : Option String) (startPage : Int)
    (endPage : Option Int) (topic : String) (f : String)
    (h : startPage < 1 ∨ ∃ e, endPage = some e ∧ e < startPage) :
    (∃ m, handleSubmit file startPage endPage topic = SubmitAction.localError m) ∧
    (∀ d, handleSubmit file startPage endPage topic ≠ SubmitAction.callUpload d) ∧
    handleSubmit (some f) 1 none topic =
      SubmitAction.callUpload ⟨f, some 1, none, some topic⟩ := by
  have key : ∃ m, handleSubmit file startPage endPage topic =
      SubmitAction.localError m := by
    cases file with
    | none => exact ⟨_, rfl⟩
    | some f2 =>
      rcases h with h1 | ⟨e, he, hlt⟩
      · exact ⟨"Start page must be at least 1.", by simp [handleSubmit, if_pos h1]⟩
      · subst he
        by_cases h1 : startPage < 1
        · exact ⟨"Start page must be at least 1.", by simp [handleSubmit, if_pos h1]⟩
        · exact ⟨"End page must be greater than or equal to start page.",
            by simp [handleSubmit, if_neg h1, if_pos hlt]⟩
  refine ⟨key, ?_, ?_⟩
  · intro d hd
    obtain ⟨m, hm⟩ := key
    rw [hm] at hd
    exact SubmitAction.noConfusion hd
  · simp [handleSubmit]

theorem handleSubmit_page_range_witness :
    handleSubmit (some "doc.pdf") 1 none "general" =
      SubmitAction.callUpload ⟨"doc.pdf", some 1, none, some "general"⟩ :=
  (handleSubmit_page_range (some "doc.pdf") 0 none "general" "doc.pdf"
    (Or.inl (by decide))).2.2

/-- C8: the payload built by `createUploadFormData` contains the file blob,
a `start_page` entry that is `"1"` when `start_page` is absent, an `end_page`
entry exactly when `end_page` is present (and only its stringification), and
a `topic` entry that is `"general"` when `topic` is absent. -/
theorem createUploadFormData_fields (d : UploadFileModel) :
    ("file", d.fileName) ∈ createUploadFormData d ∧
    ("start_page", toString (d.start_page.getD 1)) ∈ createUploadFormData d ∧
    (d.start_page = none → ("start_page", "1") ∈ createUploadFormData d) ∧
    (∀ s, ("end_page", s) ∈ createUploadFormData d ↔
      ∃ e, d.end_page = some e ∧ s = toString e) ∧
    ("topic", d.topic.getD "general") ∈ createUploadFormData d ∧
    (d.topic = none → ("topic", "general") ∈ createUploadFormData d) := by
  refine ⟨?_, ?_, ?_, ?_, ?_, ?_⟩
  · cases d.end_page <;> simp [createUploadFormData]
  · cases d.end_page <;> simp [createUploadFormData]
  · intro h
    have h1 : toString (1 : Int) = "1" := by decide
    cases d.end_page <;> simp [createUploadFormData, h, h1]
  · intro s
    cases hd : d.end_page <;> simp [createUploadFormData, hd]
  · cases d.end_page <;> simp [createUploadFormData]
  · intro h
    cases d.end_page <;> simp [createUploadFormData, h]

theorem createUploadFormData_fields_witness :
    ("start_page", "1") ∈ createUploadFormData ⟨"a.pdf", none, none, none⟩ :=
  (createUploadFormData_fields ⟨"a.pdf", none, none, none⟩).2.2.1 rfl

/-- C9: the three requests dispatched by `createMessage` all carry the very
same payload — one `conversation_id`, one `content`, one translated
`sender_type` — and the translation sends `"user"` to `"User"` and
`"assistant"` to `"Bot"`. -/
theorem createMessage_requests_same_payload (b : MessageSimple) :
    (createMessageRequests b).map HttpRequest.payload =
      [messagePayload b, messagePayload b, messagePayload b] ∧
    (messagePayload b).conversation_id = b.conversationId ∧
    (messagePayload b).content = b.content ∧
    (messagePayload b).sender_type = roleToWire b.role ∧
    roleToWire "user" = "User" ∧
    roleToWire "assistant" = "Bot" := by
  refine ⟨rfl, rfl, rfl, rfl, ?_, ?_⟩ <;> decide

/-- C10: extension validation precedes the credential lookup: for every input
whose suffix is outside the enforced allow-list, `uploadDocument` returns the
extension failure with the credential never consulted and zero HTTP calls —
for any token state, including none stored. -/
theorem uploadDocument_ext_checked_first (token : Option String)
    (http : HttpResult) (d : UploadFileModel)
    (h : ALLOWED.contains (getExt d.fileName) = false) :
    uploadDocument token http d =
      (UploadOutcome.failure
         "Invalid file type. Only PDF, PPT, and DOCX files are allowed.",
       ⟨false, 0⟩) := by
  have h2 : getExt d.fileName ∉ ALLOWED := by simpa using h
  simp [uploadDocument, h2]

theorem uploadDocument_ext_checked_first_witness :
    uploadDocument none (HttpResult.ok "ok") ⟨"doc.txt", none, none, none⟩ =
      (UploadOutcome.failure
         "Invalid file type. Only PDF, PPT, and DOCX files are allowed.",
       ⟨false, 0⟩) :=
  uploadDocument_ext_checked_first none (HttpResult.ok "ok") _ (by decide)

end Chatbot
